import Mathlib

/-!
Shallow embedding of the personal-finance pipeline
(`data_importer.py`, `categorizer.py`, `analyzer.py`, `budget_planner.py`).

Conventions of the embedding:
* Python `str` is modelled as `String` / `List Char`; `str.lower()` is modelled
  for the ASCII and Cyrillic ranges actually used by the program.
* Python `float` is modelled as `ℚ` (exact rational arithmetic standing in for
  IEEE doubles; no claim below depends on rounding of binary floats).
* A Python `dict` with string keys is modelled as an insertion-ordered
  association list; dict writes keep the position of an existing key and
  append new keys at the end, as CPython does.
* A Python function that can raise an exception is modelled with an explicit
  error value (`NormResult.error`, `Except.error ()`); `None` results are
  modelled by `NormResult.rejected` / `Option.none`.
-/

deriving instance DecidableEq for Except

namespace FinancePipeline

/- Batteries marks the arithmetic on `Rat` as irreducible for the elaborator;
re-enable unfolding locally so that concrete runs of the embedded program can
be checked by kernel reduction (`decide`). -/
attribute [local semireducible] Rat.add Rat.mul Rat.inv Rat.sub Rat.ofScientific

/-! ### Python string primitives -/

/-- Model of `str.lower()` restricted to ASCII letters and the Cyrillic
letters (`А`-`Я`, `Ё`) that occur in the program's data and keyword tables. -/
def lowerChar (c : Char) : Char :=
  if 'A' ≤ c ∧ c ≤ 'Z' then Char.ofNat (c.toNat + 32)
  else if 'А' ≤ c ∧ c ≤ 'Я' then Char.ofNat (c.toNat + 32)
  else if c = 'Ё' then 'ё'
  else c

/-- Model of `str.lower()` on whole strings. -/
def pyLower (s : String) : String := String.mk (s.data.map lowerChar)

/-- Model of `str.strip()`: drop whitespace from both ends. -/
def pyStrip (cs : List Char) : List Char :=
  ((cs.dropWhile Char.isWhitespace).reverse.dropWhile Char.isWhitespace).reverse

/-- `str.replace(',', '.')` -/
def replaceCommaWithDot (cs : List Char) : List Char :=
  cs.map (fun c => if c = ',' then '.' else c)

/-- `str.replace(' ', '')` -/
def removeSpaces (cs : List Char) : List Char :=
  cs.filter (fun c => !(c = ' '))

/-- Does `pre` occur at the start of `l`? (helper for substring search) -/
def startsWithSeq : List Char → List Char → Bool
  | [], _ => true
  | _ :: _, [] => false
  | a :: as, b :: bs => a = b && startsWithSeq as bs

/-- Does `needle` occur as a contiguous subsequence of `hay`?
Model of Python's `needle in hay` on strings (true for the empty needle). -/
def containsSeq (needle : List Char) : List Char → Bool
  | [] => needle.isEmpty
  | c :: cs => startsWithSeq needle (c :: cs) || containsSeq needle cs

/-- Python `needle in hay` for strings. -/
def pySubstr (needle hay : String) : Bool := containsSeq needle.data hay.data

/-- Split a character list on a separator character, keeping empty pieces:
model of Python's `str.split(sep)` with an explicit one-character separator. -/
def splitChar (sep : Char) : List Char → List (List Char)
  | [] => [[]]
  | c :: cs =>
    match splitChar sep cs with
    | [] => [[]]
    | r :: rs => if c = sep then [] :: r :: rs else (c :: r) :: rs

/-- Model of Python's `str.split()` (no argument): split on whitespace runs,
dropping empty pieces.  The program only applies it to single-space-separated
keywords, for which splitting on `' '` is exact. -/
def splitWords (s : String) : List String :=
  ((splitChar ' ' s.data).filter (fun w => !w.isEmpty)).map String.mk

/-- Numeric value of a digit list (most significant first). -/
def digitsToNat (cs : List Char) : Nat :=
  cs.foldl (fun n c => 10 * n + (c.toNat - 48)) 0

/-! ### Model of Python `float(string)`

`float` accepts an optionally signed decimal literal after stripping leading
and trailing whitespace, and raises `ValueError` otherwise (modelled as
`none`).  The strings this program feeds to `float` contain only digits,
dots, minus signs and spaces, so exponents, `inf`/`nan` and underscores are
irrelevant and are not modelled. -/

/-- Unsigned part of a Python float literal: `digits`, `digits.`, `.digits`
or `digits.digits`. -/
def parseUnsignedFloat (cs : List Char) : Option ℚ :=
  let intPart := cs.takeWhile Char.isDigit
  let rest := cs.dropWhile Char.isDigit
  match rest with
  | [] => if intPart.isEmpty then none else some (digitsToNat intPart : ℚ)
  | '.' :: frac =>
    if frac.all Char.isDigit && !(intPart.isEmpty && frac.isEmpty) then
      some ((digitsToNat intPart : ℚ) + (digitsToNat frac : ℚ) / (10 : ℚ) ^ frac.length)
    else none
  | _ => none

/-- Model of Python `float(s)`: `some q` on success, `none` where CPython
raises `ValueError`. -/
def pyFloat? (s : String) : Option ℚ :=
  match pyStrip s.data with
  | '-' :: rest => (parseUnsignedFloat rest).map Neg.neg
  | '+' :: rest => parseUnsignedFloat rest
  | rest => parseUnsignedFloat rest

/-! ### Data model -/

/-- The canonical transaction produced by the normalizers.  `category` is
absent (`none`) until the categorizer adds it, mirroring the optional
`"category"` key of the Python dicts. -/
structure Transaction where
  date : String
  amount : ℚ
  description : String
  type : String
  category : Option String := none
deriving DecidableEq

/-- A raw source record: an insertion-ordered string-keyed dictionary.
The program only ever reads string values out of raw records
(`_get_first_matching_value` applies `str(...)`), so values are strings. -/
abbrev RawRecord := List (String × String)

/-- Dict lookup: first (unique) matching key. -/
def dictLookup (d : RawRecord) (k : String) : Option String :=
  (d.find? (fun p => p.1 == k)).map (fun p => p.2)

/-- Dict write: update an existing key in place, else append at the end
(CPython dict semantics). -/
def dictSet (d : RawRecord) (k v : String) : RawRecord :=
  match d with
  | [] => [(k, v)]
  | (k1, v1) :: rest => if k1 = k then (k, v) :: rest else (k1, v1) :: dictSet rest k v

/-! ### `data_importer.py` -/

/-- `row = {key.lower().strip(): value for key, value in row.items()}`
(`normalize_csv_row`, line 47). -/
def lowerStripKeys (row : RawRecord) : RawRecord :=
  row.foldl (fun d p => dictSet d (String.mk (pyStrip (p.1.data.map lowerChar))) p.2) []

/-- `_get_first_matching_value` (lines 84-98): first present, truthy
(non-empty) value among the candidate fields, else `''`. -/
def get_first_matching_value (d : RawRecord) : List String → String
  | [] => ""
  | f :: fs =>
    match dictLookup d f with
    | some v => if v = "" then get_first_matching_value d fs else v
    | none => get_first_matching_value d fs

/-- `_is_float` (lines 101-123). -/
def is_float (value : String) : Bool :=
  if value = "" then false
  else
    let cleaned := removeSpaces (replaceCommaWithDot value.data)
    let dot_count := cleaned.count '.'
    let numeric_chars := cleaned.filter (fun c => !(c = '.') && !(c = '-'))
    decide (dot_count ≤ 1) && numeric_chars.all Char.isDigit &&
      decide (0 < numeric_chars.length) &&
      !(cleaned = ['.'] : Bool) && !(cleaned = ['-'] : Bool)

/-- `_determine_amount_sign` (lines 126-146): substring match of
debit/credit tokens against the lowercased type field. -/
def determine_amount_sign (amount : ℚ) (row : RawRecord) : ℚ :=
  let sign_value := pyLower (get_first_matching_value row ["type", "тип", "debit/credit"])
  if ["debit", "расход", "списание", "-"].any (fun w => pySubstr w sign_value) then -|amount|
  else if ["credit", "доход", "пополнение", "+"].any (fun w => pySubstr w sign_value) then |amount|
  else amount

/-! `normalize_date` (lines 149-195): strip a time-of-day suffix, then try
the five `strptime` patterns in order.  `strptime` matches `%Y` as exactly
four digits, `%m`/`%d` as one or two digits in range, and `datetime`
construction additionally validates the day against the month length. -/

def isLeapYear (y : Nat) : Bool :=
  y % 4 = 0 && (decide (y % 100 ≠ 0) || y % 400 = 0)

def daysInMonth (y m : Nat) : Nat :=
  if m = 2 then (if isLeapYear y then 29 else 28)
  else if m = 4 ∨ m = 6 ∨ m = 9 ∨ m = 11 then 30
  else 31

/-- One `strptime` field: all digits, length within bounds, value within
range. -/
def parseDatePart (cs : List Char) (minLen maxLen lo hi : Nat) : Option Nat :=
  if cs.all Char.isDigit ∧ minLen ≤ cs.length ∧ cs.length ≤ maxLen then
    let v := digitsToNat cs
    if lo ≤ v ∧ v ≤ hi then some v else none
  else none

def parseYear (cs : List Char) : Option Nat := parseDatePart cs 4 4 1 9999
def parseMonth (cs : List Char) : Option Nat := parseDatePart cs 1 2 1 12
def parseDay (cs : List Char) : Option Nat := parseDatePart cs 1 2 1 31

def validDate (y m d : Nat) : Option (Nat × Nat × Nat) :=
  if d ≤ daysInMonth y m then some (y, m, d) else none

/-- `strptime` with a year-month-day pattern separated by `sep`. -/
def tryYMD (sep : Char) (cs : List Char) : Option (Nat × Nat × Nat) :=
  match splitChar sep cs with
  | [ys, ms, ds] =>
    match parseYear ys, parseMonth ms, parseDay ds with
    | some y, some m, some d => validDate y m d
    | _, _, _ => none
  | _ => none

/-- `strptime` with a day-month-year pattern separated by `sep`. -/
def tryDMY (sep : Char) (cs : List Char) : Option (Nat × Nat × Nat) :=
  match splitChar sep cs with
  | [ds, ms, ys] =>
    match parseYear ys, parseMonth ms, parseDay ds with
    | some y, some m, some d => validDate y m d
    | _, _, _ => none
  | _ => none

/-- `strptime` with a month-day-year pattern separated by `sep`. -/
def tryMDY (sep : Char) (cs : List Char) : Option (Nat × Nat × Nat) :=
  match splitChar sep cs with
  | [ms, ds, ys] =>
    match parseYear ys, parseMonth ms, parseDay ds with
    | some y, some m, some d => validDate y m d
    | _, _, _ => none
  | _ => none

/-- Decimal digits of `n`, left-padded with zeros to `width`. -/
def padNat (n width : Nat) : List Char :=
  let ds := Nat.toDigits 10 n
  List.replicate (width - ds.length) '0' ++ ds

/-- `date_obj.strftime('%Y-%m-%d')`. -/
def formatISO (y m d : Nat) : String :=
  String.mk (padNat y 4 ++ '-' :: padNat m 2 ++ '-' :: padNat d 2)

/-- `normalize_date` (lines 149-177). -/
def normalize_date (date_str : String) : String :=
  if date_str = "" then date_str
  else
    let clean_date := (splitChar ' ' date_str.data).headD []
    let attempt :=
      match tryYMD '-' clean_date with
      | some r => some r
      | none =>
        match tryDMY '.' clean_date with
        | some r => some r
        | none =>
          match tryDMY '/' clean_date with
          | some r => some r
          | none =>
            match tryMDY '/' clean_date with
            | some r => some r
            | none => tryYMD '.' clean_date
    match attempt with
    | some (y, m, d) => formatISO y m d
    | none => String.mk clean_date

/-- Result of one record normalization: a canonical transaction, a `None`
rejection, or an escaped Python exception. -/
inductive NormResult where
  | ok (t : Transaction)
  | rejected
  | error
deriving DecidableEq

/-- `normalize_csv_row` (lines 37-81).  The `float(...)` call on line 67 is
only guarded by `_is_float`; where it would raise `ValueError` the result is
`.error`. -/
def normalize_csv_row (row0 : RawRecord) : NormResult :=
  let row := lowerStripKeys row0
  let date_value := get_first_matching_value row ["date", "дата", "data", "transaction_date"]
  if date_value = "" then .rejected
  else
    let normalized_date := normalize_date date_value
    if normalized_date = "" then .rejected
    else
      let amount_value := get_first_matching_value row ["amount", "сумма", "sum", "transaction_amount"]
      if amount_value = "" || !is_float amount_value then .rejected
      else
        match pyFloat? (String.mk (removeSpaces (replaceCommaWithDot amount_value.data))) with
        | none => .error
        | some a =>
          let amount := determine_amount_sign a row
          let dv := get_first_matching_value row
            ["description", "описание", "comment", "назначение", "merchant"]
          let description := if dv = "" then "No description" else dv
          .ok { date := normalized_date, amount := amount, description := description,
                type := if 0 ≤ amount then "income" else "expense" }

/-- `_adjust_json_amount_sign` (lines 274-296). -/
def adjust_json_amount_sign (amount : ℚ) (item : RawRecord) : ℚ :=
  match dictLookup item "type" with
  | none => amount
  | some tv =>
    let t := pyLower tv
    if ["debit", "expense", "расход", "outcome"].any (fun w => pySubstr w t) then -|amount|
    else if ["credit", "income", "доход", "revenue"].any (fun w => pySubstr w t) then |amount|
    else amount

/-- `normalize_json_item` (lines 229-271).  Note line 257:
`float(amount_value.replace(',', '.'))` does not strip embedded spaces,
unlike the CSV variant (line 67). -/
def normalize_json_item (item : RawRecord) : NormResult :=
  let date_value := get_first_matching_value item ["date", "дата", "transactionDate", "timestamp"]
  if date_value = "" then .rejected
  else
    let normalized_date := normalize_date date_value
    if normalized_date = "" then .rejected
    else
      let amount_value := get_first_matching_value item ["amount", "сумма", "sum", "value"]
      if amount_value = "" || !is_float amount_value then .rejected
      else
        match pyFloat? (String.mk (replaceCommaWithDot amount_value.data)) with
        | none => .error
        | some a =>
          let amount := adjust_json_amount_sign a item
          let dv := get_first_matching_value item
            ["description", "описание", "comment", "message", "details"]
          let description := if dv = "" then "No description" else dv
          .ok { date := normalized_date, amount := amount, description := description,
                type := if 0 ≤ amount then "income" else "expense" }

/-- One row of the `read_csv_file` comprehension (lines 30-34): the row is
skipped when all its values are falsy (`any(row.values())` short-circuits
before `normalize_csv_row` runs), kept when normalization yields a truthy
dict, and an exception escaping `normalize_csv_row` aborts the whole read. -/
def runCsvRow (row : RawRecord) : Except Unit (Option Transaction) :=
  if row.all (fun p => p.2 = "") then .ok none
  else
    match normalize_csv_row row with
    | .ok t => .ok (some t)
    | .rejected => .ok none
    | .error => .error ()

/-- One item of the `read_json_file` comprehension (lines 222-226). -/
def runJsonRow (item : RawRecord) : Except Unit (Option Transaction) :=
  match normalize_json_item item with
  | .ok t => .ok (some t)
  | .rejected => .ok none
  | .error => .error ()

/-- Sequential evaluation of a list comprehension whose body may raise. -/
def collectRows (f : RawRecord → Except Unit (Option Transaction)) :
    List RawRecord → Except Unit (List Transaction)
  | [] => .ok []
  | r :: rs =>
    match f r with
    | .error e => .error e
    | .ok t? =>
      match collectRows f rs with
      | .error e => .error e
      | .ok rest => .ok (match t? with | some t => t :: rest | none => rest)

def read_csv_rows : List RawRecord → Except Unit (List Transaction) := collectRows runCsvRow

def read_json_rows : List RawRecord → Except Unit (List Transaction) := collectRows runJsonRow

inductive SourceKind where
  | csv
  | json
deriving DecidableEq

/-- `import_financial_data` (lines 299-332), modelled from the parsed raw
records onward (file IO and extension dispatch reduced to `SourceKind`):
normalize every record, then keep transactions with a truthy date and a
non-zero amount (lines 324-329). -/
def import_financial_data (kind : SourceKind) (records : List RawRecord) :
    Except Unit (List Transaction) :=
  match (match kind with
         | .csv => read_csv_rows records
         | .json => read_json_rows records) with
  | .error e => .error e
  | .ok raw => .ok (raw.filter (fun t => decide (t.date ≠ "" ∧ t.amount ≠ 0)))

/-! ### `categorizer.py` -/

/-- `create_categories` (lines 5-71): the static taxonomy, in source order. -/
def create_categories : List (String × List String) := [
  ("еда", [
    "пятерочка", "магнит", "перекресток", "ашан", "лента", "продукты",
    "еда", "продуктовый", "супермаркет", "овощи", "фрукты", "молоко",
    "хлеб", "мясо", "рыба", "курочка", "гастроном", "бакалея", "спар"]),
  ("транспорт", [
    "метро", "автобус", "такси", "бензин", "заправка", "транспорт",
    "проезд", "каршеринг", "яндекс.такси", "uber", "ситимобил",
    "транспортная карта", "парковка", "штраф гибдд"]),
  ("развлечения", [
    "кино", "ресторан", "кафе", "концерт", "бар", "паб", "клуб",
    "билет", "игра", "хобби", "развлечения", "театр", "выставка",
    "музей", "боулинг", "караоке", "кофейня", "стейкхаус", "суши"]),
  ("здоровье", [
    "аптека", "врач", "больница", "лекарства", "медицина", "стоматолог",
    "поликлиника", "анализы", "медцентр", "витамины", "спортзал", "фитнес"]),
  ("коммуналка", [
    "квартплата", "электричество", "вода", "газ", "интернет", "телефон",
    "связь", "жкх", "коммунальные", "аренда", "ипотека", "рко", "домофон"]),
  ("одежда", [
    "одежда", "обувь", "магазин", "бутик", "шопинг", "бренд", "zara",
    "hm", "резерв", "ламиния", "обувной", "ателье", "трикотаж"]),
  ("образование", [
    "курсы", "учеба", "образование", "книги", "учебник", "репетитор",
    "школа", "университет", "онлайн-курс", "литература", "канцелярия"]),
  ("техника", [
    "техника", "электроника", "смартфон", "ноутбук", "компьютер",
    "телевизор", "dns", "м.видео", "ситилинк", "гаджет", "аксессуар"]),
  ("красота", [
    "парикмахер", "салон", "косметика", "косметолог", "маникюр",
    "стрижка", "spa", "уход", "парфюмерия", "рив гош", "лендри"]),
  ("зарплата", [
    "зарплата", "оклад", "аванс", "заработная", "зп", "payroll",
    "начисление зп", "расчетный счет"]),
  ("премия", [
    "премия", "бонус", "поощрение", "вознаграждение", "kpi"]),
  ("инвестиции", [
    "дивиденды", "проценты", "инвестиции", "вклад", "депозит",
    "акции", "облигации", "купон", "инвест"]),
  ("подарки", [
    "подарок", "сюрприз", "поздравление", "перевод", "от друга"]),
  ("фриланс", [
    "фриланс", "проект", "удаленная работа", "заказ", "исполнение"])]

/-- The fixed income-category list of `categorize_transaction` (line 90). -/
def income_categories : List String :=
  ["зарплата", "премия", "инвестиции", "подарки", "фриланс"]

/-- Characters matched by the regex class `\w` for the program's ASCII and
Cyrillic descriptions. -/
def isWordChar (c : Char) : Bool :=
  c.isAlphanum || c = '_' || ('а' ≤ c && c ≤ 'я') || ('А' ≤ c && c ≤ 'Я') ||
    c = 'ё' || c = 'Ё'

/-- `re.sub(r'[^\w\s]', ' ', desc_lower)` (line 86): replace every
non-word, non-whitespace character by a space. -/
def clean_desc (cs : List Char) : List Char :=
  cs.map (fun c => if isWordChar c || c.isWhitespace then c else ' ')

/-- Taxonomy lookup, `categories[category]` / `category in categories`. -/
def catLookup (cats : List (String × List String)) (k : String) : Option (List String) :=
  (cats.find? (fun p => p.1 == k)).map (fun p => p.2)

/-- Keyword test of the income branch (line 94). -/
def income_keyword_match (dL dC : String) (kw : String) : Bool :=
  pySubstr kw dL || pySubstr kw dC

/-- Keyword test of the first expense pass (lines 107-110): substring of
either description variant, or any whitespace-delimited token of the keyword
is a substring of either variant. -/
def loose_match (dL dC : String) (kw : String) : Bool :=
  pySubstr kw dL || pySubstr kw dC ||
    (splitWords kw).any (fun w => pySubstr w dL) ||
    (splitWords kw).any (fun w => pySubstr w dC)

/-- Keyword test of the second expense pass (lines 116-120): for multi-word
keywords only, all words must occur in `desc_lower`. -/
def multiword_match (dL : String) (kw : String) : Bool :=
  let keyword_parts := splitWords kw
  decide (1 < keyword_parts.length) && keyword_parts.all (fun w => pySubstr w dL)

/-- The expense category keys: taxonomy keys minus the income set
(lines 99-102), in taxonomy order. -/
def expense_categories_of (cats : List (String × List String)) : List String :=
  (cats.map (fun p => p.1)).filter (fun c => !(income_categories.contains c))

/-- `categorize_transaction` (lines 74-122). -/
def categorize_transaction (description : String) (amount : ℚ)
    (categories : List (String × List String)) : String :=
  let desc_lower := pyLower description
  let desc_clean := String.mk (clean_desc desc_lower.data)
  if 0 ≤ amount then
    match income_categories.find? (fun cat =>
        match catLookup categories cat with
        | some kws => kws.any (income_keyword_match desc_lower desc_clean)
        | none => false) with
    | some c => c
    | none => "прочие доходы"
  else
    let expense_categories := expense_categories_of categories
    match expense_categories.find? (fun cat =>
        ((catLookup categories cat).getD []).any (loose_match desc_lower desc_clean)) with
    | some c => c
    | none =>
      match expense_categories.find? (fun cat =>
          ((catLookup categories cat).getD []).any (multiword_match desc_lower)) with
      | some c => c
      | none => "другое"

/-! ### `analyzer.py` -/

structure MonthStat where
  income : ℚ
  expenses : ℚ
  balance : ℚ
deriving DecidableEq

structure BasicStats where
  total_income : ℚ
  total_expenses : ℚ
  balance : ℚ
  transaction_count : Nat
  largest_expenses : List Transaction
  monthly_stats : List (String × MonthStat)
deriving DecidableEq

/-- One iteration of the main loop of `calculate_basic_stats`
(lines 12-19): accumulate income, signed expenses, and the expense list. -/
def statsStep (acc : ℚ × ℚ × List Transaction) (t : Transaction) :
    ℚ × ℚ × List Transaction :=
  if 0 ≤ t.amount then (acc.1 + t.amount, acc.2.1, acc.2.2)
  else (acc.1, acc.2.1 + t.amount, acc.2.2 ++ [t])

/-- Comparison key of `largest_expenses.sort(key=lambda x: x["amount"])`. -/
def amountLe (a b : Transaction) : Prop := a.amount ≤ b.amount

instance : DecidableRel amountLe := fun a b =>
  inferInstanceAs (Decidable (a.amount ≤ b.amount))

instance : IsTotal Transaction amountLe := ⟨fun a b => le_total a.amount b.amount⟩

instance : IsTrans Transaction amountLe := ⟨fun _ _ _ h1 h2 => le_trans h1 h2⟩

/-- Inner update of one month's rollup entry (lines 35-41). -/
def updMonth (s : MonthStat) (a : ℚ) : MonthStat :=
  let s1 := if 0 ≤ a then { s with income := s.income + a }
            else { s with expenses := s.expenses + a }
  { s1 with balance := s1.income + s1.expenses }

/-- `monthly_stats[month_key]` initialisation and update: existing keys keep
their position, new keys are appended (dict semantics, lines 32-41). -/
def monthUpdate : List (String × MonthStat) → String → ℚ → List (String × MonthStat)
  | [], k, a => [(k, updMonth ⟨0, 0, 0⟩ a)]
  | (k1, s) :: rest, k, a =>
    if k1 = k then (k1, updMonth s a) :: rest
    else (k1, s) :: monthUpdate rest k a

/-- One iteration of the monthly-stats loop (lines 28-41): records whose
date string is shorter than 7 characters are skipped. -/
def monthStep (ms : List (String × MonthStat)) (t : Transaction) :
    List (String × MonthStat) :=
  if 7 ≤ t.date.length then monthUpdate ms (String.mk (t.date.data.take 7)) t.amount
  else ms

/-- `calculate_basic_stats` (lines 4-50).  Python's `list.sort` is a stable
ascending sort, modelled by the stable `List.insertionSort`. -/
def calculate_basic_stats (transactions : List Transaction) : BasicStats :=
  let acc := transactions.foldl statsStep (0, 0, [])
  { total_income := acc.1
    total_expenses := |acc.2.1|
    balance := acc.1 + acc.2.1
    transaction_count := transactions.length
    largest_expenses := (List.insertionSort amountLe acc.2.2).take 5
    monthly_stats := transactions.foldl monthStep [] }

structure CategoryStats where
  expenses_by_category : List (String × ℚ)
  income_by_category : List (String × ℚ)
deriving DecidableEq

/-- `d[category] = 0` (if absent) followed by `d[category] += amount`
(lines 64-71): dict-keyed accumulation. -/
def catAdd : List (String × ℚ) → String → ℚ → List (String × ℚ)
  | [], k, a => [(k, 0 + a)]
  | (k1, v) :: rest, k, a =>
    if k1 = k then (k1, v + a) :: rest
    else (k1, v) :: catAdd rest k a

/-- One iteration of the `calculate_by_category` loop (lines 60-71). -/
def catStep (st : CategoryStats) (t : Transaction) : CategoryStats :=
  let category := t.category.getD "другое"
  if t.amount < 0 then
    { st with expenses_by_category := catAdd st.expenses_by_category category t.amount }
  else
    { st with income_by_category := catAdd st.income_by_category category t.amount }

/-- `calculate_by_category` (lines 53-76). -/
def calculate_by_category (transactions : List Transaction) : CategoryStats :=
  transactions.foldl catStep ⟨[], []⟩

/-! ### `budget_planner.py`

The Cyrillic string literals of this source file are mojibake (the file is
double-encoded); the embedded literals reproduce the file's text verbatim. -/

/-- Model of Python `round(x, 2)` on the exact rationals standing in for
floats.  (CPython rounds exact halves to even on binary floats; no claim
below depends on tie behaviour.) -/
def round2 (q : ℚ) : ℚ := ((round (q * 100) : ℤ) : ℚ) / 100

/-- `expenses_by_category[category].append(amount)` with dict initialisation
(lines 10-17 of `budget_planner.py`). -/
def listAppendAt : List (String × List ℚ) → String → ℚ → List (String × List ℚ)
  | [], k, a => [(k, [a])]
  | (k1, l) :: rest, k, a =>
    if k1 = k then (k1, l ++ [a]) :: rest
    else (k1, l) :: listAppendAt rest k a

structure CategoryAnalysis where
  average_monthly : ℚ
  percentage_of_total : ℚ
deriving DecidableEq

structure HistoricalAnalysis where
  category_analysis : List (String × CategoryAnalysis)
  total_monthly_expenses : ℚ
deriving DecidableEq

/-- The expense sub-list (line 8 of `budget_planner.py`). -/
def historical_expenses (transactions : List Transaction) : List Transaction :=
  transactions.filter (fun t => decide (t.amount < 0))

/-- `total_expenses = sum(abs(e["amount"]) for e in expenses)` (line 20). -/
def historical_total_expenses (transactions : List Transaction) : ℚ :=
  ((historical_expenses transactions).map (fun t => |t.amount|)).sum

/-- `analyze_historical_spending` (lines 4-35 of `budget_planner.py`). -/
def analyze_historical_spending (transactions : List Transaction) : HistoricalAnalysis :=
  let expenses := historical_expenses transactions
  let byCat := expenses.foldl
    (fun m e => listAppendAt m (e.category.getD "–¥—Ä—É–≥–æ–µ") |e.amount|) []
  let total := historical_total_expenses transactions
  { category_analysis := byCat.map (fun p =>
      let amounts := p.2
      let avg := if amounts.length ≠ 0 then amounts.sum / (amounts.length : ℚ) else 0
      let pct := if 0 < total then amounts.sum / total * 100 else 0
      (p.1, { average_monthly := round2 avg, percentage_of_total := round2 pct }))
    total_monthly_expenses := round2 total }

/-- The recommendation messages of `compare_budget_vs_actual`, abstracted
from their formatted text. -/
inductive Recommendation where
  | withinBudget
  | overBudget
  | cutCategory (category : String) (excessPercent : ℚ)
  | savingsGoal (amount : ℚ)
deriving DecidableEq

structure BudgetComparison where
  recommendations : List Recommendation
  total_budget : ℚ
  total_actual : ℚ
  savings_goal : ℚ
deriving DecidableEq

/-- The actual-expense rollup of `compare_budget_vs_actual` (lines 100-108). -/
def actualExpensesOf (actual_transactions : List Transaction) : List (String × ℚ) :=
  actual_transactions.foldl
    (fun m t => if t.amount < 0 then catAdd m (t.category.getD "–¥—Ä—É–≥–æ–µ") |t.amount| else m)
    []

/-- The per-category overage loop (lines 120-129): skip the savings
pseudo-category; where actual exceeds the limit, compute
`(actual - limit) / limit * 100`.  A zero limit makes this division raise
`ZeroDivisionError`, modelled by `.error ()`. -/
def overage_recs (actual : List (String × ℚ)) :
    List (String × ℚ) → Except Unit (List Recommendation)
  | [] => .ok []
  | (category, budget_limit) :: rest =>
    if category = "–Ω–∞–∫–æ–ø–ª–µ–Ω–∏—è" then overage_recs actual rest
    else
      let actual_amount := ((actual.find? (fun p => p.1 == category)).map (fun p => p.2)).getD 0
      if budget_limit < actual_amount then
        if budget_limit = 0 then .error ()
        else
          match overage_recs actual rest with
          | .error e => .error e
          | .ok rs =>
            .ok (.cutCategory category ((actual_amount - budget_limit) / budget_limit * 100) :: rs)
      else overage_recs actual rest

/-- `compare_budget_vs_actual` (lines 90-139), taking the budget dict's
`budget_limits` and `savings_goal` fields directly. -/
def compare_budget_vs_actual (budget_limits : List (String × ℚ)) (savings_goal : ℚ)
    (actual_transactions : List Transaction) : Except Unit BudgetComparison :=
  let actual_expenses := actualExpensesOf actual_transactions
  let total_budget := (budget_limits.map (fun p => p.2)).sum
  let total_actual := (actual_expenses.map (fun p => p.2)).sum
  let blanket := if total_actual ≤ total_budget then Recommendation.withinBudget
                 else Recommendation.overBudget
  match overage_recs actual_expenses budget_limits with
  | .error e => .error e
  | .ok recs =>
    .ok { recommendations := blanket :: recs ++
            (if 0 < savings_goal then [Recommendation.savingsGoal savings_goal] else [])
          total_budget := round2 total_budget
          total_actual := round2 total_actual
          savings_goal := savings_goal }

/-! ### Derived notions used in the statements -/

/-- Sum of the non-negative (income) amounts of a transaction list. -/
def incomeSumOf (ts : List Transaction) : ℚ :=
  ((ts.filter (fun t => decide (0 ≤ t.amount))).map (fun t => t.amount)).sum

/-- The expense transactions (amount `< 0`) of a list, in order. -/
def expensesOf (ts : List Transaction) : List Transaction :=
  ts.filter (fun t => decide (t.amount < 0))

/-- The signed sum of the expense amounts of a transaction list. -/
def signed_expense_sum (ts : List Transaction) : ℚ :=
  ((expensesOf ts).map (fun t => t.amount)).sum

/-- The category rollup's expense sums, totalled over all categories. -/
def category_expense_total (ts : List Transaction) : ℚ :=
  (((calculate_by_category ts).expenses_by_category).map (fun p => p.2)).sum

/-- Total of the per-month incomes of a basic-statistics result. -/
def monthlyIncomeTotal (s : BasicStats) : ℚ :=
  (s.monthly_stats.map (fun p => p.2.income)).sum

/-- Total of the per-month (signed) expenses of a basic-statistics result. -/
def monthlyExpenseTotal (s : BasicStats) : ℚ :=
  (s.monthly_stats.map (fun p => p.2.expenses)).sum

/-! ### Bridge lemmas about the main statistics loop -/

theorem statsFold_fst (ts : List Transaction) (i e : ℚ) (l : List Transaction) :
    (List.foldl statsStep (i, e, l) ts).1 = i + incomeSumOf ts := by
  induction ts generalizing i e l with
  | nil => simp [incomeSumOf]
  | cons t ts ih =>
    by_cases h : 0 ≤ t.amount
    · simp [statsStep, h, ih, incomeSumOf, List.filter_cons]
      try ring
    · simp [statsStep, h, ih, incomeSumOf, List.filter_cons]

theorem statsFold_snd_fst (ts : List Transaction) (i e : ℚ) (l : List Transaction) :
    (List.foldl statsStep (i, e, l) ts).2.1 = e + signed_expense_sum ts := by
  induction ts generalizing i e l with
  | nil => simp [signed_expense_sum, expensesOf]
  | cons t ts ih =>
    by_cases h : 0 ≤ t.amount
    · have h2 : ¬ t.amount < 0 := not_lt.mpr h
      simp [statsStep, h, h2, ih, signed_expense_sum, expensesOf, List.filter_cons]
    · have h2 : t.amount < 0 := not_le.mp h
      simp [statsStep, h, h2, ih, signed_expense_sum, expensesOf, List.filter_cons]
      try ring

theorem statsFold_snd_snd (ts : List Transaction) (i e : ℚ) (l : List Transaction) :
    (List.foldl statsStep (i, e, l) ts).2.2 = l ++ expensesOf ts := by
  induction ts generalizing i e l with
  | nil => simp [expensesOf]
  | cons t ts ih =>
    by_cases h : 0 ≤ t.amount
    · have h2 : ¬ t.amount < 0 := not_lt.mpr h
      simp [statsStep, h, h2, ih, expensesOf, List.filter_cons]
    · have h2 : t.amount < 0 := not_le.mp h
      simp [statsStep, h, h2, ih, expensesOf, List.filter_cons]

theorem total_income_eq (ts : List Transaction) :
    (calculate_basic_stats ts).total_income = incomeSumOf ts := by
  simp [calculate_basic_stats, statsFold_fst]

theorem total_expenses_eq (ts : List Transaction) :
    (calculate_basic_stats ts).total_expenses = |signed_expense_sum ts| := by
  simp [calculate_basic_stats, statsFold_snd_fst]

theorem balance_eq (ts : List Transaction) :
    (calculate_basic_stats ts).balance = incomeSumOf ts + signed_expense_sum ts := by
  simp [calculate_basic_stats, statsFold_fst, statsFold_snd_fst]

theorem largest_expenses_eq (ts : List Transaction) :
    (calculate_basic_stats ts).largest_expenses
      = (List.insertionSort amountLe (expensesOf ts)).take 5 := by
  simp [calculate_basic_stats, statsFold_snd_snd]

theorem sum_nonpos_of_mem (l : List ℚ) (h : ∀ x ∈ l, x ≤ 0) : l.sum ≤ 0 := by
  induction l with
  | nil => simp
  | cons x xs ih =>
    simp only [List.sum_cons]
    have h1 := h x (List.mem_cons_self x xs)
    have h2 := ih (fun y hy => h y (List.mem_cons_of_mem x hy))
    linarith

theorem signed_expense_sum_nonpos (ts : List Transaction) : signed_expense_sum ts ≤ 0 := by
  apply sum_nonpos_of_mem
  intro x hx
  obtain ⟨t, ht, rfl⟩ := List.mem_map.mp hx
  have := of_decide_eq_true (List.mem_filter.mp ht).2
  exact le_of_lt this

theorem total_expenses_eq_neg (ts : List Transaction) :
    (calculate_basic_stats ts).total_expenses = -(signed_expense_sum ts) := by
  rw [total_expenses_eq, abs_of_nonpos (signed_expense_sum_nonpos ts)]

theorem catAdd_valsum (m : List (String × ℚ)) (k : String) (a : ℚ) :
    ((catAdd m k a).map (fun p => p.2)).sum = (m.map (fun p => p.2)).sum + a := by
  induction m with
  | nil => simp [catAdd]
  | cons p rest ih =>
    by_cases h : p.1 = k
    · simp [catAdd, h]
      ring
    · simp [catAdd, h, ih]
      ring

theorem catFold_expsum (ts : List Transaction) (st : CategoryStats) :
    (((List.foldl catStep st ts).expenses_by_category).map (fun p => p.2)).sum
      = (st.expenses_by_category.map (fun p => p.2)).sum + signed_expense_sum ts := by
  induction ts generalizing st with
  | nil => simp [signed_expense_sum, expensesOf]
  | cons t ts ih =>
    by_cases h : t.amount < 0
    · simp [catStep, h, ih, catAdd_valsum, signed_expense_sum, expensesOf, List.filter_cons]
      ring
    · simp [catStep, h, ih, signed_expense_sum, expensesOf, List.filter_cons]

/-- C6: in the basic statistics, `total_income` plus the signed sum of the
expense amounts equals `balance`, and `balance` is invariant under any
permutation of the input transaction list. -/
theorem basic_stats_balance_decomposition_perm_invariant
    (ts ts2 : List Transaction) (h : ts.Perm ts2) :
    (calculate_basic_stats ts).total_income + signed_expense_sum ts
        = (calculate_basic_stats ts).balance ∧
      (calculate_basic_stats ts).balance = (calculate_basic_stats ts2).balance := by
  constructor
  · rw [total_income_eq, balance_eq]
  · rw [balance_eq, balance_eq]
    have hi : incomeSumOf ts = incomeSumOf ts2 := ((h.filter _).map _).sum_eq
    have he : signed_expense_sum ts = signed_expense_sum ts2 := ((h.filter _).map _).sum_eq
    rw [hi, he]

/-- C6 witness: the decomposition and permutation invariance at a concrete
two-element list and a transposition of it. -/
theorem basic_stats_balance_decomposition_perm_invariant_witness :
    (calculate_basic_stats [
        { date := "2024-01-01", amount := 7, description := "a", type := "income" },
        { date := "2024-01-02", amount := -3, description := "b", type := "expense" }]).total_income
        + signed_expense_sum [
        { date := "2024-01-01", amount := 7, description := "a", type := "income" },
        { date := "2024-01-02", amount := -3, description := "b", type := "expense" }]
        = (calculate_basic_stats [
        { date := "2024-01-01", amount := 7, description := "a", type := "income" },
        { date := "2024-01-02", amount := -3, description := "b", type := "expense" }]).balance ∧
      (calculate_basic_stats [
        { date := "2024-01-01", amount := 7, description := "a", type := "income" },
        { date := "2024-01-02", amount := -3, description := "b", type := "expense" }]).balance
        = (calculate_basic_stats [
        { date := "2024-01-02", amount := -3, description := "b", type := "expense" },
        { date := "2024-01-01", amount := 7, description := "a", type := "income" }]).balance :=
  basic_stats_balance_decomposition_perm_invariant
    [{ date := "2024-01-01", amount := 7, description := "a", type := "income" },
     { date := "2024-01-02", amount := -3, description := "b", type := "expense" }]
    [{ date := "2024-01-02", amount := -3, description := "b", type := "expense" },
     { date := "2024-01-01", amount := 7, description := "a", type := "income" }]
    (by decide)

/-- C7, counterexample to the claim as stated: for a single uncategorized
expense of `-100`, the rollup's expense sums total `-100` (the rollup stores
signed sums) while the flat `total_expenses` is the positive `100`. -/
theorem category_rollup_total_ne_total_expenses :
    category_expense_total
        [{ date := "2024-01-01", amount := -100, description := "a", type := "expense" }]
      ≠ (calculate_basic_stats
        [{ date := "2024-01-01", amount := -100, description := "a", type := "expense" }]).total_expenses := by
  decide

/-- C7 (amended): the per-category expense sums of the rollup, totalled over
all categories (including the fallback bucket), equal the negation of the
flat `total_expenses` — the rollup keeps signed (negative) sums while
`total_expenses` is their absolute value. -/
theorem category_rollup_total_eq_neg_total_expenses (ts : List Transaction) :
    category_expense_total ts = -(calculate_basic_stats ts).total_expenses := by
  rw [category_expense_total, calculate_by_category, catFold_expsum, total_expenses_eq_neg]
  simp

/-- C8: the largest-expenses list of the basic statistics is sorted
ascending by signed amount, has length `min 5 (number of expenses)`, and its
members precede (are `≤` in amount than) every expense left out — i.e. it
holds the at-most-5 largest-magnitude expenses; concretely, over expenses
with amounts `[-100, -5, -50]` it is the ordering `[-100, -50, -5]`. -/
theorem largest_expenses_top5_sorted (ts : List Transaction) :
    List.Sorted amountLe ((calculate_basic_stats ts).largest_expenses) ∧
      (calculate_basic_stats ts).largest_expenses.length = min 5 (expensesOf ts).length ∧
      (∃ rest, ((calculate_basic_stats ts).largest_expenses ++ rest).Perm (expensesOf ts) ∧
        ∀ x ∈ (calculate_basic_stats ts).largest_expenses, ∀ y ∈ rest, x.amount ≤ y.amount) ∧
      (calculate_basic_stats [
        { date := "2024-01-01", amount := -100, description := "a", type := "expense" },
        { date := "2024-01-02", amount := -5, description := "b", type := "expense" },
        { date := "2024-01-03", amount := -50, description := "c", type := "expense" }]).largest_expenses
        = [{ date := "2024-01-01", amount := -100, description := "a", type := "expense" },
           { date := "2024-01-03", amount := -50, description := "c", type := "expense" },
           { date := "2024-01-02", amount := -5, description := "b", type := "expense" }] := by
  have hL := largest_expenses_eq ts
  have hsorted : List.Sorted amountLe (List.insertionSort amountLe (expensesOf ts)) :=
    List.sorted_insertionSort amountLe (expensesOf ts)
  refine ⟨?_, ?_, ?_, by decide⟩
  · rw [hL]
    exact List.Pairwise.sublist (List.take_sublist 5 _) hsorted
  · rw [hL, List.length_take, List.length_insertionSort]
  · refine ⟨(List.insertionSort amountLe (expensesOf ts)).drop 5, ?_, ?_⟩
    · rw [hL, List.take_append_drop]
      exact List.perm_insertionSort amountLe (expensesOf ts)
    · intro x hx y hy
      rw [hL] at hx
      have hpair : List.Pairwise amountLe
          ((List.insertionSort amountLe (expensesOf ts)).take 5 ++
            (List.insertionSort amountLe (expensesOf ts)).drop 5) := by
        rw [List.take_append_drop]
        exact hsorted
      exact (List.pairwise_append.mp hpair).2.2 x hx y hy

/-- The conjunction of facts of claim C10 about a transaction `t` with a
short (`< 7` characters) date string: it is counted in the flat totals,
balance and count, but omitted from the monthly rollup, whose totals can
therefore be smaller in magnitude than the flat totals (closing conjunct:
a concrete one-element instance). -/
def ShortDateCountedButNoMonth (t : Transaction) (ts : List Transaction) : Prop :=
  (calculate_basic_stats (t :: ts)).transaction_count
      = (calculate_basic_stats ts).transaction_count + 1 ∧
    (calculate_basic_stats (t :: ts)).balance = t.amount + (calculate_basic_stats ts).balance ∧
    (0 ≤ t.amount → (calculate_basic_stats (t :: ts)).total_income
      = t.amount + (calculate_basic_stats ts).total_income) ∧
    (t.amount < 0 → (calculate_basic_stats (t :: ts)).total_expenses
      = |t.amount| + (calculate_basic_stats ts).total_expenses) ∧
    (calculate_basic_stats (t :: ts)).monthly_stats = (calculate_basic_stats ts).monthly_stats ∧
    monthlyIncomeTotal (calculate_basic_stats (t :: ts))
      = monthlyIncomeTotal (calculate_basic_stats ts) ∧
    monthlyExpenseTotal (calculate_basic_stats (t :: ts))
      = monthlyExpenseTotal (calculate_basic_stats ts) ∧
    monthlyIncomeTotal (calculate_basic_stats
        [{ date := "2024", amount := 100, description := "d", type := "income" }])
      < (calculate_basic_stats
        [{ date := "2024", amount := 100, description := "d", type := "income" }]).total_income

/-- C10: a transaction whose date string has fewer than 7 characters is
still counted in the income/expense totals, the balance and the transaction
count, but is omitted from the per-month rollup, so the monthly totals can
be smaller in magnitude than the flat totals. -/
theorem short_date_counted_but_no_month (t : Transaction) (ts : List Transaction)
    (h : t.date.length < 7) : ShortDateCountedButNoMonth t ts := by
  have h7 : ¬ 7 ≤ t.date.length := not_le.mpr h
  have hmonth : (calculate_basic_stats (t :: ts)).monthly_stats
      = (calculate_basic_stats ts).monthly_stats := by
    simp [calculate_basic_stats, monthStep, h7]
  refine ⟨by simp [calculate_basic_stats], ?_, ?_, ?_, hmonth, ?_, ?_, by decide⟩
  · by_cases ha : 0 ≤ t.amount
    · simp [balance_eq, calculate_basic_stats, List.foldl_cons, statsStep, ha,
        statsFold_fst, statsFold_snd_fst]
      ring
    · simp [balance_eq, calculate_basic_stats, List.foldl_cons, statsStep, ha,
        statsFold_fst, statsFold_snd_fst]
      ring
  · intro ha
    simp [calculate_basic_stats, List.foldl_cons, statsStep, ha, statsFold_fst]
    try ring
  · intro ha
    have ha2 : ¬ 0 ≤ t.amount := not_le.mpr ha
    have e1 : (calculate_basic_stats (t :: ts)).total_expenses
        = |t.amount + signed_expense_sum ts| := by
      simp [calculate_basic_stats, List.foldl_cons, statsStep, ha2, statsFold_snd_fst]
    rw [e1, abs_of_nonpos (by
        have := signed_expense_sum_nonpos ts
        linarith),
      total_expenses_eq, abs_of_nonpos (signed_expense_sum_nonpos ts),
      abs_of_nonpos (le_of_lt ha)]
    ring
  · rw [monthlyIncomeTotal, monthlyIncomeTotal, hmonth]
  · rw [monthlyExpenseTotal, monthlyExpenseTotal, hmonth]

/-- C10 witness: the property instantiated at a concrete short-date
transaction. -/
theorem short_date_counted_but_no_month_witness :
    ({ date := "2024", amount := 100, description := "d", type := "income"} : Transaction).date.length < 7 ∧
      ShortDateCountedButNoMonth
        { date := "2024", amount := 100, description := "d", type := "income" }
        [{ date := "2024-02-01", amount := -8, description := "e", type := "expense" }] :=
  ⟨by decide,
   short_date_counted_but_no_month
     { date := "2024", amount := 100, description := "d", type := "income" }
     [{ date := "2024-02-01", amount := -8, description := "e", type := "expense" }]
     (by decide)⟩

/-- C1: for the raw record `{date: "15.01.2024", amount: "1 234,50", type:
"расход"}` the tabular normalizer produces the canonical transaction
`{date: "2024-01-15", amount: -1234.50, type: "expense"}`, but the
record-oriented normalizer raises `ValueError` (line 257 omits the space
stripping of line 67), contradicting the claim for the JSON variant. -/
theorem normalizer_scenario_csv_ok_json_raises :
    normalize_csv_row [("date", "15.01.2024"), ("amount", "1 234,50"), ("type", "расход")]
        = .ok { date := "2024-01-15", amount := -1234.5, description := "No description",
                type := "expense" } ∧
      normalize_json_item [("date", "15.01.2024"), ("amount", "1 234,50"), ("type", "расход")]
        = .error := by
  constructor
  · decide
  · decide

/-- C2: the numeric test `_is_float` accepts `"1-2"` (it deletes every
minus sign before the digit check), yet `float("1-2")` raises, so
`normalize_csv_row` propagates an exception instead of rejecting the
record; the record-oriented variant likewise raises on `"1 234,50"`. -/
theorem normalizer_not_total_on_accepted_numeric :
    is_float "1-2" = true ∧
      pyFloat? "1-2" = none ∧
      normalize_csv_row [("date", "2024-01-15"), ("amount", "1-2")] = .error ∧
      normalize_json_item [("date", "15.01.2024"), ("amount", "1 234,50")] = .error := by
  refine ⟨by decide, by decide, by decide, by decide⟩

/-- C4: categorization is a total, deterministic function of
`(description, amount, taxonomy)`: it returns exactly one label, and equal
inputs give the identical label. -/
theorem categorize_transaction_total_deterministic
    (d d2 : String) (a a2 : ℚ) (c c2 : List (String × List String))
    (hd : d = d2) (ha : a = a2) (hc : c = c2) :
    (∃! label : String, categorize_transaction d a c = label) ∧
      categorize_transaction d a c = categorize_transaction d2 a2 c2 := by
  constructor
  · exact ⟨categorize_transaction d a c, rfl, fun y hy => hy.symm⟩
  · rw [hd, ha, hc]

/-- C4 witness: totality and determinism at concrete inputs. -/
theorem categorize_transaction_total_deterministic_witness :
    (∃! label : String, categorize_transaction "Такси" (-1) create_categories = label) ∧
      categorize_transaction "Такси" (-1) create_categories
        = categorize_transaction "Такси" (-1) create_categories :=
  categorize_transaction_total_deterministic
    "Такси" "Такси" (-1) (-1) create_categories create_categories rfl rfl rfl

/-- C9, counterexample to the claim as stated: in
`compare_budget_vs_actual` a zero budget limit with positive actual
spending reaches the unguarded division `(actual - limit) / limit * 100`
and faults (ZeroDivisionError), instead of returning 0. -/
theorem zero_budget_limit_overage_faults :
    compare_budget_vs_actual [("a", 0)] 0
        [{ date := "2024-01-01", amount := -5, description := "d", type := "expense",
           category := some "a" }] = .error () := by
  decide

/-- C9 (amended): when the total historical expenses are zero every
category's `percentage_of_total` is 0 (the guard on line 25 of
`budget_planner.py`), but the zero-budget-limit case of the
budget-vs-actual comparison is unguarded and faults when actual spending
exceeds the zero limit. -/
theorem zero_denominator_percentages (ts : List Transaction)
    (h : historical_total_expenses ts = 0) :
    (∀ p ∈ (analyze_historical_spending ts).category_analysis,
        p.2.percentage_of_total = 0) ∧
      compare_budget_vs_actual [("b", 0)] 0
        [{ date := "2024-01-02", amount := -7, description := "e", type := "expense",
           category := some "b" }] = .error () := by
  constructor
  · intro p hp
    simp only [analyze_historical_spending, List.mem_map] at hp
    obtain ⟨q, hq, rfl⟩ := hp
    have hlt : ¬ (0 : ℚ) < historical_total_expenses ts := by rw [h]; exact lt_irrefl 0
    simp [hlt, round2]
  · decide

/-- C9 witness: the amended statement at the empty transaction list, whose
historical expense total is zero. -/
theorem zero_denominator_percentages_witness :
    historical_total_expenses [] = 0 ∧
      ((∀ p ∈ (analyze_historical_spending []).category_analysis,
          p.2.percentage_of_total = 0) ∧
        compare_budget_vs_actual [("b", 0)] 0
          [{ date := "2024-01-02", amount := -7, description := "e", type := "expense",
             category := some "b" }] = .error ()) :=
  ⟨by decide, zero_denominator_percentages [] (by decide)⟩

theorem normalize_csv_row_ok_type (r : RawRecord) (t : Transaction)
    (h : normalize_csv_row r = .ok t) :
    t.type = (if 0 ≤ t.amount then "income" else "expense") := by
  simp only [normalize_csv_row] at h
  repeat' split at h
  all_goals first
    | (exact NormResult.noConfusion h)
    | (injection h with h2; subst h2; rename_i hsign;
       first
         | (rw [if_pos hsign])
         | (rw [if_neg hsign]))

theorem normalize_json_item_ok_type (r : RawRecord) (t : Transaction)
    (h : normalize_json_item r = .ok t) :
    t.type = (if 0 ≤ t.amount then "income" else "expense") := by
  simp only [normalize_json_item] at h
  repeat' split at h
  all_goals first
    | (exact NormResult.noConfusion h)
    | (injection h with h2; subst h2; rename_i hsign;
       first
         | (rw [if_pos hsign])
         | (rw [if_neg hsign]))

theorem runCsvRow_ok_some (r : RawRecord) (t : Transaction)
    (h : runCsvRow r = .ok (some t)) : normalize_csv_row r = .ok t := by
  unfold runCsvRow at h
  split at h
  · exact absurd h (by simp)
  · split at h
    all_goals rename_i heq
    · injection h with h2
      injection h2 with h3
      rw [heq, h3]
    · exact absurd h (by simp)
    · exact absurd h (by simp)

theorem runJsonRow_ok_some (r : RawRecord) (t : Transaction)
    (h : runJsonRow r = .ok (some t)) : normalize_json_item r = .ok t := by
  unfold runJsonRow at h
  split at h
  all_goals rename_i heq
  · injection h with h2
    injection h2 with h3
    rw [heq, h3]
  · exact absurd h (by simp)
  · exact absurd h (by simp)

theorem collectRows_mem (f : RawRecord → Except Unit (Option Transaction))
    (P : Transaction → Prop) (hf : ∀ r t, f r = .ok (some t) → P t) :
    ∀ (rs : List RawRecord) (l : List Transaction),
      collectRows f rs = .ok l → ∀ t ∈ l, P t := by
  intro rs
  induction rs with
  | nil =>
    intro l h t ht
    unfold collectRows at h
    injection h with h2
    subst h2
    simp at ht
  | cons r rs ih =>
    intro l h t ht
    unfold collectRows at h
    cases hfr : f r with
    | error e => rw [hfr] at h; exact absurd h (by simp)
    | ok t? =>
      rw [hfr] at h
      cases hrest : collectRows f rs with
      | error e => rw [hrest] at h; exact absurd h (by simp)
      | ok rest =>
        rw [hrest] at h
        cases t? with
        | none =>
          injection h with h2
          subst h2
          exact ih rest hrest t ht
        | some t0 =>
          injection h with h2
          subst h2
          rcases List.mem_cons.mp ht with h1 | h1
          · subst h1
            exact hf r t hfr
          · exact ih rest hrest t h1

/-- C3: every transaction in the list returned by the importer has a
non-zero amount, and its `type` equals `"income"` exactly when the amount
is non-negative and `"expense"` otherwise — derived from the sign, never
copied from the source record. -/
theorem imported_transactions_nonzero_and_type_from_sign
    (kind : SourceKind) (records : List RawRecord) (l : List Transaction)
    (h : import_financial_data kind records = .ok l) :
    ∀ t ∈ l, t.amount ≠ 0 ∧ t.type = (if 0 ≤ t.amount then "income" else "expense") := by
  intro t ht
  unfold import_financial_data at h
  cases kind with
  | csv =>
    cases hr : read_csv_rows records with
    | error e => rw [hr] at h; exact absurd h (by simp)
    | ok raw =>
      rw [hr] at h
      injection h with h2
      subst h2
      have hmem := List.mem_filter.mp ht
      have hpred := of_decide_eq_true hmem.2
      exact ⟨hpred.2, collectRows_mem runCsvRow _
        (fun r t2 h2 => normalize_csv_row_ok_type r t2 (runCsvRow_ok_some r t2 h2))
        records raw hr t hmem.1⟩
  | json =>
    cases hr : read_json_rows records with
    | error e => rw [hr] at h; exact absurd h (by simp)
    | ok raw =>
      rw [hr] at h
      injection h with h2
      subst h2
      have hmem := List.mem_filter.mp ht
      have hpred := of_decide_eq_true hmem.2
      exact ⟨hpred.2, collectRows_mem runJsonRow _
        (fun r t2 h2 => normalize_json_item_ok_type r t2 (runJsonRow_ok_some r t2 h2))
        records raw hr t hmem.1⟩

/-- C3 witness: a concrete one-record import, with the invariant checked on
the resulting singleton list. -/
theorem imported_transactions_nonzero_and_type_from_sign_witness :
    import_financial_data .csv [[("Date", "15.01.2024"), ("Amount", "1 234,50"), ("Type", "расход")]]
        = .ok [{ date := "2024-01-15", amount := -1234.5, description := "No description",
                 type := "expense" }] ∧
      ∀ t ∈ [({ date := "2024-01-15", amount := -1234.5, description := "No description",
                type := "expense" } : Transaction)],
        t.amount ≠ 0 ∧ t.type = (if 0 ≤ t.amount then "income" else "expense") :=
  ⟨by decide,
   imported_transactions_nonzero_and_type_from_sign .csv
     [[("Date", "15.01.2024"), ("Amount", "1 234,50"), ("Type", "расход")]]
     [{ date := "2024-01-15", amount := -1234.5, description := "No description",
        type := "expense" }]
     (by decide)⟩

/-- A description on which no expense-category keyword match of either pass
succeeds, under the default taxonomy. -/
def no_expense_keyword_hit (d : String) : Bool :=
  (expense_categories_of create_categories).all (fun cat =>
    ((catLookup create_categories cat).getD []).all (fun kw =>
      !(loose_match (pyLower d) (String.mk (clean_desc (pyLower d).data)) kw) &&
        !(multiword_match (pyLower d) kw)))

theorem categorize_no_hit_fallback (d : String) (amount : ℚ) (ha : amount < 0)
    (h : no_expense_keyword_hit d = true) :
    categorize_transaction d amount create_categories = "другое" := by
  rw [no_expense_keyword_hit] at h
  have hall := List.all_eq_true.mp h
  simp only [categorize_transaction]
  rw [if_neg (not_le.mpr ha)]
  have h1 : (expense_categories_of create_categories).find? (fun cat =>
      ((catLookup create_categories cat).getD []).any
        (loose_match (pyLower d) (String.mk (clean_desc (pyLower d).data)))) = none := by
    rw [List.find?_eq_none]
    intro cat hcat hany
    obtain ⟨kw, hkw, hl⟩ := List.any_eq_true.mp hany
    have h3 := List.all_eq_true.mp (hall cat hcat) kw hkw
    simp [hl] at h3
  have h2 : (expense_categories_of create_categories).find? (fun cat =>
      ((catLookup create_categories cat).getD []).any
        (multiword_match (pyLower d))) = none := by
    rw [List.find?_eq_none]
    intro cat hcat hany
    obtain ⟨kw, hkw, hl⟩ := List.any_eq_true.mp hany
    have h3 := List.all_eq_true.mp (hall cat hcat) kw hkw
    simp [hl] at h3
  rw [h1, h2]

/-- C5: under the default taxonomy, description `"Такси Яндекс"` with amount
`-350` is categorized `"транспорт"` (keyword `"такси"`), and any description
on which no expense keyword match succeeds is, with amount `-10`, categorized
with the fallback label `"другое"`. -/
theorem taxi_scenario_and_no_hit_fallback (d : String)
    (h : no_expense_keyword_hit d = true) :
    categorize_transaction "Такси Яндекс" (-350) create_categories = "транспорт" ∧
      categorize_transaction d (-10) create_categories = "другое" :=
  ⟨by decide, categorize_no_hit_fallback d (-10) (by norm_num) h⟩

/-- C5 witness: the description `"zzz"` matches no expense keyword and falls
back to `"другое"`. -/
theorem taxi_scenario_and_no_hit_fallback_witness :
    no_expense_keyword_hit "zzz" = true ∧
      (categorize_transaction "Такси Яндекс" (-350) create_categories = "транспорт" ∧
        categorize_transaction "zzz" (-10) create_categories = "другое") :=
  ⟨by decide, taxi_scenario_and_no_hit_fallback "zzz" (by decide)⟩

end FinancePipeline
